import Mathlib

/-!
Shallow embedding of `.github/actions/stage/index.js` from the
peasant-brave-windows repository: the per-window orchestrator that drives a
multi-stage Brave build across time-limited CI windows.

The embedding follows the source file closely:

* `execWithTimeout` models the timeout-bounded process supervisor
  (`execWithTimeout`, index.js lines 17-75): the external process either
  exits at some wall-clock offset with a nullable exit code, or fails to
  spawn.  The JS promise resolves with `999` when the internal timer fired
  before the exit was observed, with `code || 0` otherwise, and with `1` on
  a spawn error.
* `run` models the `run()` entry point (index.js lines 77-316) as a pure
  function from an environment (inputs, restored marker content, command
  outcomes, store-oracle behaviour) to a trace of externally visible
  operations plus the reported outputs.
-/

namespace PeasantBrave

/-- Behaviour of the supervised external process for one invocation:
either it exits at wall-clock offset `t` (milliseconds after spawn) with a
nullable exit code (`none` models JS `null`, i.e. death by signal), or the
spawn itself errors (the child's `error` event). -/
inductive ProcEvent where
  | exits (t : Int) (code : Option Int)
  | errors
  deriving DecidableEq, Repr

/-- Result of `execWithTimeout`: the integer the promise resolves with, and
whether the internal budget timer fired (the JS `killed` flag). -/
structure ExecResult where
  code : Int
  timerFired : Bool
  deriving DecidableEq, Repr

/-- JS `code || 0` on a nullable exit code: `null` becomes `0`, any number
is kept (`0 || 0` is `0`). -/
def jsOrZero (code : Option Int) : Int := code.getD 0

/-- index.js lines 17-75.  The `exit` handler runs `clearTimeout(timer)`
first, before looking at the code, so when the process exits before the
budget elapses (`t < timeout`) the timer never fires (`killed` stays
`false`) and the promise resolves with `code || 0`.  When the timer fired
first (`timeout ≤ t`) the handler sees `killed = true` and resolves with
the sentinel `999`.  The `error` handler (spawn failure) also clears the
timer and resolves with `1`. -/
def execWithTimeout (timeout : Int) (ev : ProcEvent) : ExecResult :=
  match ev with
  | .errors => ⟨1, false⟩
  | .exits t code => if t < timeout then ⟨jsOrZero code, false⟩ else ⟨999, true⟩

/-- The spec's `ExitOutcome` for one supervised command. -/
inductive Outcome where
  | success
  | timedOut
  | failure (code : Int)
  deriving DecidableEq, Repr

/-- How the caller of `execWithTimeout` classifies the resolved integer
(index.js lines 216-226): `0` advances the phase, `999` is logged as a
timeout, anything else as a command failure.  Both of the latter leave the
phase unchanged. -/
def classify (c : Int) : Outcome :=
  if c = 0 then .success else if c = 999 then .timedOut else .failure c

/-- Externally visible operations performed by one window, in order.
Store operations are the artifact-service calls; `spawn*` actions are
spawned external commands. -/
inductive Action where
  | mkdir
  | getArtifact (name : String)
  | downloadArtifact (name : String)
  | extractCheckpoint                -- 7z x build-state.zip
  | rmArtifactDir
  | pipInstall                       -- python -m pip install httplib2
  | gitCloneBraveCore
  | npmInstall
  | spawnInit                        -- npm run init (no timeout)
  | spawnBuild (timeout : Int)       -- npm run build under execWithTimeout
  | writeMarker (s : String)         -- fs.writeFile(build-stage.txt, s)
  | globInstaller
  | spawnPackageZip                  -- 7z a brave-browser-…-win-x64.zip
  | deleteArtifact (name : String) (attempt : Nat)
  | uploadArtifact (name : String) (attempt : Nat)
  | sleep (ms : Int)
  | spawnStateZip                    -- 7z a build-state.zip
  deriving DecidableEq, Repr

/-- Environment of one window: the action inputs, whether the local reads
and the artifact download succeed, the restored marker content (trimmed;
`none` when `build-stage.txt` is unreadable), the exit code of
`npm run init`, the elapsed job time observed at the build-stage check,
the behaviour of the spawned build process, whether the installer glob is
non-empty, and per-attempt outcomes of the artifact-store delete/upload
calls for the final and the checkpoint blob. -/
structure Env where
  finished : Bool
  from_artifact : Bool
  versionOk : Bool                   -- brave_version.txt readable
  downloadOk : Bool                  -- checkpoint download + extract succeed
  marker : Option String             -- restored build-stage.txt content
  initCode : Int                     -- exit code of npm run init
  elapsedAtBuild : Int               -- Date.now() - JOB_START_TIME at line 199
  buildEvent : ProcEvent             -- behaviour of the npm run build process
  installerFound : Bool              -- BraveBrowser*.exe glob non-empty
  finalDelOk : Nat → Bool            -- deleteArtifact 'brave-browser' outcomes
  finalPutOk : Nat → Bool            -- uploadArtifact 'brave-browser' outcomes
  ckptDelOk : Nat → Bool             -- deleteArtifact 'build-artifact' outcomes
  ckptPutOk : Nat → Bool             -- uploadArtifact 'build-artifact' outcomes

/-- index.js line 171: `const MAX_JOB_TIME = 15 * 60 * 1000;` (the comment
there says "4.5 hours" but the value is 15 minutes). -/
def MAX_JOB_TIME : Int := 15 * 60 * 1000

/-- Stage restored from the marker file: the trimmed file content, or
`"init"` when the file cannot be read (index.js lines 158-167). -/
def stage0 (env : Env) : String := env.marker.getD "init"

/-- Stage after the init block (index.js lines 177-194): `npm run init`
runs exactly when the restored stage is `"init"`, and the stage advances
to `"build"` exactly when it exits 0. -/
def stage1 (env : Env) : String :=
  if stage0 env = "init" ∧ env.initCode = 0 then "build" else stage0 env

/-- index.js line 200: `remainingTime = MAX_JOB_TIME - elapsedTime`. -/
def remaining (env : Env) : Int := MAX_JOB_TIME - env.elapsedAtBuild

/-- The build block runs the supervised command iff the stage is `"build"`
and the remaining time is positive (index.js lines 198-214). -/
def buildRuns (env : Env) : Prop := stage1 env = "build" ∧ 0 < remaining env

instance (env : Env) : Decidable (buildRuns env) := by
  unfold buildRuns; infer_instance

/-- The integer `npm run build` resolves with, when it runs. -/
def buildCode (env : Env) : Int :=
  (execWithTimeout (remaining env) env.buildEvent).code

/-- Stage after the build block (index.js lines 216-227). -/
def stage2 (env : Env) : String :=
  if buildRuns env ∧ buildCode env = 0 then "package" else stage1 env

/-- `buildSuccess` flag after the build block (index.js lines 169, 220). -/
def buildSuccessF (env : Env) : Bool :=
  decide (buildRuns env ∧ buildCode env = 0)

/-- Marker writes performed by the init block. -/
def initWrites (env : Env) : List String :=
  if stage0 env = "init" ∧ env.initCode = 0 then ["build"] else []

/-- Marker writes performed by the build block. -/
def buildWrites (env : Env) : List String :=
  if buildRuns env ∧ buildCode env = 0 then ["package"] else []

/-- All writes to `build-stage.txt` performed by one window, in order. -/
def markerWrites (env : Env) : List String := initWrites env ++ buildWrites env

/-- Actions of the init block. -/
def initActs (env : Env) : List Action :=
  if stage0 env = "init" then
    if env.initCode = 0 then [.spawnInit, .writeMarker "build"] else [.spawnInit]
  else []

/-- Actions of the build block. -/
def buildActs (env : Env) : List Action :=
  if buildRuns env then
    if buildCode env = 0 then [.spawnBuild (remaining env), .writeMarker "package"]
    else [.spawnBuild (remaining env)]
  else []

/-- The retry loop shared verbatim by the final-artifact upload
(index.js lines 263-278) and the checkpoint upload (lines 297-312):
`for (i = 0; i < 5; ++i)`, each iteration first calls `deleteArtifact`
inside a `try` whose `catch` block is empty — so `delOk` is never
consulted for control flow — then calls `uploadArtifact`; on success it
breaks, on failure it logs and sleeps 10 seconds.  Returns the action
trace of the loop (attempts numbered from `i`) and whether some upload
succeeded. -/
def uploadLoop (name : String) (delOk putOk : Nat → Bool) :
    Nat → Nat → List Action × Bool
  | _, 0 => ([], false)
  | i, fuel + 1 =>
      if putOk i then
        ([.deleteArtifact name i, .uploadArtifact name i], true)
      else
        (.deleteArtifact name i :: .uploadArtifact name i :: .sleep 10000 ::
            (uploadLoop name delOk putOk (i + 1) fuel).1,
          (uploadLoop name delOk putOk (i + 1) fuel).2)

/-- Result of one window: the ordered trace of store/process operations,
the value passed to `core.setOutput('finished', ·)` (`none` when the run
failed before reaching it), whether `core.setFailed` ended the run,
the final `buildSuccess` flag and stage, the marker writes, whether a
checkpoint was zipped and uploaded, and whether the build was logged as
timed out (the `buildCode === 999` branch, index.js line 222). -/
structure RunResult where
  actions : List Action
  outputFinished : Option Bool
  failed : Bool
  buildSuccess : Bool
  finalStage : String
  markerWrites : List String
  savedCheckpoint : Bool
  timedOutLogged : Bool
  deriving DecidableEq, Repr

/-- Setup actions before the stage logic (index.js lines 108-155): restore
the checkpoint when `from_artifact`, else first-window environment setup
(pip install, clone brave-core, npm install; `ignoreReturnCode` is set on
all three, so their exit codes do not influence control flow). -/
def setupActs (env : Env) : List Action :=
  if env.from_artifact then
    [.mkdir, .getArtifact "build-artifact", .downloadArtifact "build-artifact",
      .extractCheckpoint, .rmArtifactDir]
  else [.mkdir, .pipInstall, .gitCloneBraveCore, .npmInstall]

/-- The part of `run()` after the early returns (index.js lines 102-316):
setup/restore, marker read, init block, build block, then either the
final-artifact packaging+upload branch (taken only when `buildSuccess` is
set and the stage is `package`, line 235) or the checkpoint branch. -/
def mainResult (env : Env) : RunResult :=
  let timedOut : Bool := decide (buildRuns env ∧ buildCode env = 999)
  if buildSuccessF env = true ∧ stage2 env = "package" then
    let pkgActs : List Action :=
      .globInstaller :: (if env.installerFound then [] else [.spawnPackageZip])
    let up := uploadLoop "brave-browser" env.finalDelOk env.finalPutOk 0 5
    { actions := setupActs env ++ initActs env ++ buildActs env ++ pkgActs ++ up.1
      outputFinished := some true
      failed := false
      buildSuccess := buildSuccessF env
      finalStage := stage2 env
      markerWrites := markerWrites env
      savedCheckpoint := false
      timedOutLogged := timedOut }
  else
    let up := uploadLoop "build-artifact" env.ckptDelOk env.ckptPutOk 0 5
    { actions := setupActs env ++ initActs env ++ buildActs env ++
        [.sleep 5000, .spawnStateZip] ++ up.1
      outputFinished := some false
      failed := false
      buildSuccess := buildSuccessF env
      finalStage := stage2 env
      markerWrites := markerWrites env
      savedCheckpoint := true
      timedOutLogged := timedOut }

/-- The `run()` entry point, index.js lines 77-316.  Control flow:
read `brave_version.txt` (failure ⇒ `setFailed`, return, before anything
else); if the `finished` input is true, set output `finished: true` and
return immediately (line 97, before any store or process operation); if
`from_artifact` and the checkpoint download fails, the error is rethrown
and fails the run (lines 122-125); otherwise proceed with `mainResult`. -/
def run (env : Env) : RunResult :=
  if env.versionOk = false then
    ⟨[], none, true, false, "", [], false, false⟩
  else if env.finished then
    ⟨[], some true, false, false, "", [], false, false⟩
  else if env.from_artifact ∧ env.downloadOk = false then
    ⟨[.mkdir, .getArtifact "build-artifact"], none, true, false, "", [], false, false⟩
  else mainResult env

/-- Successor relation of the phase cursor recorded in `build-stage.txt`. -/
def nextStage : String → Option String
  | "init" => some "build"
  | "build" => some "package"
  | _ => none

/-- One forward step of the phase cursor. -/
def stepRel (a b : String) : Prop := nextStage a = some b

/-- The time budgets passed to the supervised build command in a trace. -/
def buildBudgets (acts : List Action) : List Int :=
  acts.filterMap fun a => match a with | .spawnBuild b => some b | _ => none

/-- Attempt indices of `uploadArtifact name` calls in a trace. -/
def uploadsOf (name : String) (acts : List Action) : List Nat :=
  acts.filterMap fun a =>
    match a with
    | .uploadArtifact n i => if n = name then some i else none
    | _ => none

/-- The marker value persisted by a window that restored marker `m`: the
last value written to `build-stage.txt`, or `m` when the window wrote
nothing. -/
def carriedMarker (m : String) (ws : List String) : String := ws.getLastD m

/-- Marker-write history of a sequence of windows threaded through the
persisted marker: window `i+1` restores the marker value window `i` left
behind (the cross-window persistence of `build-stage.txt` inside the
checkpoint zip). -/
def seqWrites (m : String) : List Env → List String
  | [] => []
  | e :: es =>
      let w := (run { e with marker := some m }).markerWrites
      w ++ seqWrites (carriedMarker m w) es

instance : DecidableRel stepRel := fun a b =>
  inferInstanceAs (Decidable (nextStage a = some b))

/-! ### Concrete window environments used in counterexamples and witnesses -/

/-- A typical non-first window: restored checkpoint at the `build` stage,
build process exits 0 quickly, all store calls succeed. -/
def envBase : Env :=
  { finished := false, from_artifact := true, versionOk := true, downloadOk := true,
    marker := some "build", initCode := 0, elapsedAtBuild := 0,
    buildEvent := .exits 5 (some 0), installerFound := true,
    finalDelOk := fun _ => true, finalPutOk := fun _ => true,
    ckptDelOk := fun _ => true, ckptPutOk := fun _ => true }

/-- A window that restores a checkpoint whose marker reads `package`. -/
def envC1 : Env := { envBase with marker := some "package" }

/-- A window reaching the build stage with 1 second of remaining budget. -/
def envC2 : Env := { envBase with elapsedAtBuild := 899000 }

/-- A window reaching the build stage with the job time already exhausted
(remaining budget negative). -/
def envC3 : Env := { envBase with elapsedAtBuild := 1200000 }

/-- A window in the checkpoint branch whose uploads all fail. -/
def envC5 : Env := { envBase with elapsedAtBuild := 900000, ckptPutOk := fun _ => false }

/-- A window invoked with the `finished` input set. -/
def envC6 : Env := { envBase with finished := true }

/-- A window whose build-process spawn errors. -/
def envC8 : Env := { envBase with buildEvent := .errors }

/-- A window whose build process dies by signal (JS exit code `null`). -/
def envC9 : Env := { envBase with buildEvent := .exits 5 none }

/-- A window whose build process exits on its own with code 999 long before
the budget expires. -/
def envC10 : Env := { envBase with buildEvent := .exits 5 (some 999) }

/-- A window whose build process genuinely outlives the budget (the
supervisor's timer fires and kills it). -/
def envC10' : Env := { envBase with buildEvent := .exits 1000000 (some 0) }

/-! ### Helper lemmas -/

theorem getLast?_cons_eq {α : Type} (m : α) (w : List α) :
    (m :: w).getLast? = some (w.getLastD m) := by
  induction w generalizing m with
  | nil => rfl
  | cons a w ih => rw [List.getLastD_cons, ← ih a]; rfl

theorem run_eq_main (env : Env) (hv : env.versionOk = true) (hf : env.finished = false)
    (hd : env.from_artifact = true → env.downloadOk = true) :
    run env = mainResult env := by
  have h3 : ¬(env.from_artifact = true ∧ env.downloadOk = false) := by
    rintro ⟨ha, hb⟩
    rw [hd ha] at hb
    cases hb
  simp [run, hv, hf, h3]

theorem mainResult_markerWrites (env : Env) :
    (mainResult env).markerWrites = markerWrites env := by
  unfold mainResult
  split <;> rfl

theorem mainResult_failed (env : Env) : (mainResult env).failed = false := by
  unfold mainResult
  split <;> rfl

theorem mainResult_finalStage (env : Env) : (mainResult env).finalStage = stage2 env := by
  unfold mainResult
  split <;> rfl

theorem mainResult_buildSuccess (env : Env) :
    (mainResult env).buildSuccess = buildSuccessF env := by
  unfold mainResult
  split <;> rfl

theorem mainResult_success (env : Env)
    (h : buildSuccessF env = true ∧ stage2 env = "package") :
    (mainResult env).outputFinished = some true ∧
    (mainResult env).savedCheckpoint = false ∧
    (mainResult env).actions = setupActs env ++ initActs env ++ buildActs env ++
      (.globInstaller :: (if env.installerFound then [] else [.spawnPackageZip])) ++
      (uploadLoop "brave-browser" env.finalDelOk env.finalPutOk 0 5).1 := by
  unfold mainResult
  rw [if_pos h]
  exact ⟨rfl, rfl, rfl⟩

theorem mainResult_not_success (env : Env)
    (h : ¬(buildSuccessF env = true ∧ stage2 env = "package")) :
    (mainResult env).outputFinished = some false ∧
    (mainResult env).savedCheckpoint = true ∧
    (mainResult env).actions = setupActs env ++ initActs env ++ buildActs env ++
      [.sleep 5000, .spawnStateZip] ++
      (uploadLoop "build-artifact" env.ckptDelOk env.ckptPutOk 0 5).1 := by
  unfold mainResult
  rw [if_neg h]
  exact ⟨rfl, rfl, rfl⟩

theorem run_markerWrites_cases (env : Env) :
    (run env).markerWrites = markerWrites env ∨ (run env).markerWrites = [] := by
  unfold run
  split
  · right; rfl
  · split
    · right; rfl
    · split
      · right; rfl
      · left; exact mainResult_markerWrites env

theorem chain_markerWrites (env : Env) :
    List.Chain' stepRel (stage0 env :: markerWrites env) := by
  unfold markerWrites initWrites buildWrites
  by_cases h1 : stage0 env = "init" ∧ env.initCode = 0 <;>
    by_cases h2 : buildRuns env ∧ buildCode env = 0
  · rw [if_pos h1, if_pos h2, h1.1]
    exact List.chain'_cons.mpr ⟨rfl, List.chain'_cons.mpr ⟨rfl, List.chain'_singleton _⟩⟩
  · rw [if_pos h1, if_neg h2, h1.1]
    exact List.chain'_cons.mpr ⟨rfl, List.chain'_singleton _⟩
  · have hs0 : stage0 env = "build" := by
      have hb := h2.1.1
      unfold stage1 at hb
      rw [if_neg h1] at hb
      exact hb
    rw [if_neg h1, if_pos h2, hs0]
    exact List.chain'_cons.mpr ⟨rfl, List.chain'_singleton _⟩
  · rw [if_neg h1, if_neg h2]
    simp

theorem chain_run_markerWrites (env : Env) :
    List.Chain' stepRel (stage0 env :: (run env).markerWrites) := by
  rcases run_markerWrites_cases env with h | h
  · rw [h]; exact chain_markerWrites env
  · rw [h]; simp

theorem mem_build_markerWrites (env : Env) (h : "build" ∈ markerWrites env) :
    stage0 env = "init" ∧ env.initCode = 0 := by
  unfold markerWrites initWrites buildWrites at h
  by_cases h1 : stage0 env = "init" ∧ env.initCode = 0
  · exact h1
  · exfalso
    rw [if_neg h1] at h
    by_cases h2 : buildRuns env ∧ buildCode env = 0 <;> simp [h2] at h

theorem mem_package_markerWrites (env : Env) (h : "package" ∈ markerWrites env) :
    stage1 env = "build" ∧ 0 < remaining env ∧ buildCode env = 0 := by
  unfold markerWrites initWrites buildWrites at h
  by_cases h2 : buildRuns env ∧ buildCode env = 0
  · exact ⟨h2.1.1, h2.1.2, h2.2⟩
  · exfalso
    rw [if_neg h2] at h
    by_cases h1 : stage0 env = "init" ∧ env.initCode = 0 <;> simp [h1] at h

theorem uploadLoop_delOk_irrel (name : String) (d d' p : Nat → Bool) :
    ∀ (n i : Nat), uploadLoop name d p i n = uploadLoop name d' p i n := by
  intro n
  induction n with
  | zero => intro i; rfl
  | succ n ih =>
      intro i
      simp only [uploadLoop]
      rw [ih (i + 1)]

theorem uploadLoop_delete_before_upload (name : String) (d p : Nat → Bool) :
    ∀ (n i j : Nat), Action.uploadArtifact name j ∈ (uploadLoop name d p i n).1 →
      [Action.deleteArtifact name j, Action.uploadArtifact name j] <:+:
        (uploadLoop name d p i n).1 := by
  intro n
  induction n with
  | zero => intro i j h; simp [uploadLoop] at h
  | succ n ih =>
      intro i j h
      by_cases hput : p i
      · rw [uploadLoop, if_pos hput] at h ⊢
        simp only [List.mem_cons, List.not_mem_nil, or_false] at h
        rcases h with h | h
        · exact absurd h (by simp)
        · rw [Action.uploadArtifact.injEq] at h
          obtain ⟨-, rfl⟩ := h
          exact List.infix_refl _
      · rw [uploadLoop, if_neg hput] at h ⊢
        simp only [List.mem_cons] at h
        rcases h with h | h | h | h
        · exact absurd h (by simp)
        · rw [Action.uploadArtifact.injEq] at h
          obtain ⟨-, rfl⟩ := h
          exact ⟨[], _, rfl⟩
        · exact absurd h (by simp)
        · exact List.infix_cons (List.infix_cons (List.infix_cons (ih (i + 1) j h)))

theorem uploadsOf_append (name : String) (l₁ l₂ : List Action) :
    uploadsOf name (l₁ ++ l₂) = uploadsOf name l₁ ++ uploadsOf name l₂ := by
  simp [uploadsOf, List.filterMap_append]

theorem buildBudgets_append (l₁ l₂ : List Action) :
    buildBudgets (l₁ ++ l₂) = buildBudgets l₁ ++ buildBudgets l₂ := by
  simp [buildBudgets, List.filterMap_append]

theorem uploadLoop_uploadsOf (name : String) (d p : Nat → Bool) :
    ∀ (n i : Nat), (uploadsOf name (uploadLoop name d p i n).1).length ≤ n := by
  intro n
  induction n with
  | zero => intro i; simp [uploadLoop, uploadsOf]
  | succ n ih =>
      intro i
      by_cases hput : p i
      · rw [uploadLoop, if_pos hput]
        simp [uploadsOf]
      · rw [uploadLoop, if_neg hput]
        have : uploadsOf name (Action.deleteArtifact name i ::
            Action.uploadArtifact name i :: Action.sleep 10000 ::
            (uploadLoop name d p (i + 1) n).1) =
            i :: uploadsOf name (uploadLoop name d p (i + 1) n).1 := by
          simp [uploadsOf, List.filterMap_cons]
        rw [this, List.length_cons]
        exact Nat.succ_le_succ (ih (i + 1))

theorem uploadLoop_all_fail (name : String) (d p : Nat → Bool) (h : ∀ i, p i = false) :
    uploadLoop name d p 0 5 =
      ([.deleteArtifact name 0, .uploadArtifact name 0, .sleep 10000,
        .deleteArtifact name 1, .uploadArtifact name 1, .sleep 10000,
        .deleteArtifact name 2, .uploadArtifact name 2, .sleep 10000,
        .deleteArtifact name 3, .uploadArtifact name 3, .sleep 10000,
        .deleteArtifact name 4, .uploadArtifact name 4, .sleep 10000], false) := by
  simp [uploadLoop, h]

theorem buildBudgets_uploadLoop (name : String) (d p : Nat → Bool) :
    ∀ (n i : Nat), buildBudgets (uploadLoop name d p i n).1 = [] := by
  intro n
  induction n with
  | zero => intro i; rfl
  | succ n ih =>
      intro i
      by_cases hput : p i
      · rw [uploadLoop, if_pos hput]; rfl
      · rw [uploadLoop, if_neg hput]
        have : buildBudgets (Action.deleteArtifact name i ::
            Action.uploadArtifact name i :: Action.sleep 10000 ::
            (uploadLoop name d p (i + 1) n).1) =
            buildBudgets (uploadLoop name d p (i + 1) n).1 := by
          simp [buildBudgets, List.filterMap_cons]
        rw [this]
        exact ih (i + 1)

theorem buildBudgets_setupActs (env : Env) : buildBudgets (setupActs env) = [] := by
  unfold setupActs
  split <;> rfl

theorem buildBudgets_initActs (env : Env) : buildBudgets (initActs env) = [] := by
  unfold initActs
  split
  · split <;> rfl
  · rfl

theorem buildBudgets_buildActs (env : Env) :
    buildBudgets (buildActs env) = if buildRuns env then [remaining env] else [] := by
  unfold buildActs
  split
  · split <;> rfl
  · rfl

theorem buildBudgets_run (env : Env) (hv : env.versionOk = true) (hf : env.finished = false)
    (hd : env.from_artifact = true → env.downloadOk = true) :
    buildBudgets (run env).actions =
      if buildRuns env then [remaining env] else [] := by
  rw [run_eq_main env hv hf hd]
  by_cases hbs : buildSuccessF env = true ∧ stage2 env = "package"
  · rw [(mainResult_success env hbs).2.2]
    rw [buildBudgets_append, buildBudgets_append, buildBudgets_append,
      buildBudgets_append, buildBudgets_setupActs, buildBudgets_initActs,
      buildBudgets_buildActs, buildBudgets_uploadLoop]
    have hpkg : buildBudgets (Action.globInstaller ::
        (if env.installerFound then [] else [.spawnPackageZip])) = [] := by
      split <;> rfl
    rw [hpkg]
    simp
  · rw [(mainResult_not_success env hbs).2.2]
    rw [buildBudgets_append, buildBudgets_append, buildBudgets_append,
      buildBudgets_append, buildBudgets_setupActs, buildBudgets_initActs,
      buildBudgets_buildActs, buildBudgets_uploadLoop]
    simp [buildBudgets]

theorem chain_seqWrites :
    ∀ (es : List Env) (m : String), List.Chain' stepRel (m :: seqWrites m es) := by
  intro es
  induction es with
  | nil => intro m; simp [seqWrites]
  | cons e es ih =>
      intro m
      rw [seqWrites]
      have h1 : List.Chain' stepRel
          (m :: (run { e with marker := some m }).markerWrites) :=
        chain_run_markerWrites { e with marker := some m }
      have h2 := ih (carriedMarker m (run { e with marker := some m }).markerWrites)
      rw [show m :: ((run { e with marker := some m }).markerWrites ++
            seqWrites (carriedMarker m (run { e with marker := some m }).markerWrites) es) =
          (m :: (run { e with marker := some m }).markerWrites) ++
            seqWrites (carriedMarker m (run { e with marker := some m }).markerWrites) es
          from rfl]
      rw [List.chain'_append]
      refine ⟨h1, (List.chain'_cons'.mp h2).2, ?_⟩
      intro x hx y hy
      rw [getLast?_cons_eq] at hx
      simp only [Option.mem_def, Option.some.injEq] at hx
      subst hx
      exact (List.chain'_cons'.mp h2).1 y hy

/-! ### Claims -/

/-- C1: the claim says a window invoked with `finished=false` whose
restored marker is `package` executes the packaging step, uploads the
final artifact on its success and reports `finished: true`.  The code
contradicts this (and the repository's own WORKFLOW_DESIGN.md pseudocode,
whose `case 'package'` runs `createPackage()` and reports finished): the
packaging/upload branch is guarded by `buildSuccess && currentStage ===
'package'` (index.js line 235) and `buildSuccess` is set only by an
in-window build success, so a window restored at marker `package` runs
no phase command at all, saves a checkpoint and reports
`finished: false`. -/
theorem c1_restored_package_marker_stalls :
    stage0 envC1 = "package"
    ∧ envC1.finished = false
    ∧ (run envC1).outputFinished = some false
    ∧ (run envC1).savedCheckpoint = true
    ∧ uploadsOf "brave-browser" (run envC1).actions = []
    ∧ Action.globInstaller ∉ (run envC1).actions
    ∧ buildBudgets (run envC1).actions = []
    ∧ (run envC1).markerWrites = [] := by
  decide

/-- C2 counterexample: with the restored stage `build` and
`elapsedAtBuild = 899000` the remaining time is 1000 ms — positive and
far below any tens-of-minutes floor — yet the budget passed to the
supervised build command is exactly 1000 ms; no clamping to a minimum
floor exists in the code. -/
theorem c2_counterexample :
    remaining envC2 = 1000
    ∧ (0 : Int) < remaining envC2
    ∧ remaining envC2 < 20 * 60 * 1000
    ∧ buildBudgets (run envC2).actions = [remaining envC2] := by
  decide

/-- C2 amended: for every window reaching the build phase with positive
remaining time (however small), the budget passed to the supervised build
command is exactly the computed remaining time; the code never clamps it
up to a minimum floor. -/
theorem c2_no_floor_clamp (env : Env)
    (hv : env.versionOk = true) (hf : env.finished = false)
    (hd : env.from_artifact = true → env.downloadOk = true)
    (hs : stage1 env = "build") (hr : 0 < remaining env) :
    buildBudgets (run env).actions = [remaining env] := by
  rw [buildBudgets_run env hv hf hd, if_pos ⟨hs, hr⟩]

theorem c2_witness :
    (0 : Int) < remaining envC2 ∧ stage1 envC2 = "build" ∧
    buildBudgets (run envC2).actions = [remaining envC2] :=
  ⟨by decide, by decide,
    c2_no_floor_clamp envC2 rfl rfl (fun _ => rfl) (by decide) (by decide)⟩

/-- C3 counterexample: with `elapsedAtBuild = 1200000` the remaining time
is negative, and the window does not run the build command at all — no
budget is passed to the supervisor, the window goes straight to the
checkpoint branch — contradicting the claim that the command is still run
under a small fallback budget. -/
theorem c3_counterexample :
    remaining envC3 ≤ 0
    ∧ stage1 envC3 = "build"
    ∧ buildBudgets (run envC3).actions = []
    ∧ (run envC3).savedCheckpoint = true
    ∧ (run envC3).outputFinished = some false := by
  decide

/-- C3 amended: when the computed remaining time is zero or negative the
window skips the build command entirely (no fallback budget exists) and
proceeds to the checkpoint branch, reporting `finished: false`; the
supervisor is only ever invoked with a strictly positive budget. -/
theorem c3_skip_build_when_no_time (env : Env)
    (hv : env.versionOk = true) (hf : env.finished = false)
    (hd : env.from_artifact = true → env.downloadOk = true) :
    (remaining env ≤ 0 →
      buildBudgets (run env).actions = []
      ∧ (run env).savedCheckpoint = true
      ∧ (run env).outputFinished = some false)
    ∧ (∀ b ∈ buildBudgets (run env).actions, 0 < b) := by
  constructor
  · intro hr
    have hnr : ¬buildRuns env := fun hb => absurd hb.2 (not_lt.mpr hr)
    have hbsf : buildSuccessF env = false := by
      unfold buildSuccessF
      exact decide_eq_false (fun hb => hnr hb.1)
    have hbs : ¬(buildSuccessF env = true ∧ stage2 env = "package") := by
      rintro ⟨hb, -⟩
      rw [hbsf] at hb
      cases hb
    refine ⟨?_, ?_, ?_⟩
    · rw [buildBudgets_run env hv hf hd, if_neg hnr]
    · rw [run_eq_main env hv hf hd]
      exact (mainResult_not_success env hbs).2.1
    · rw [run_eq_main env hv hf hd]
      exact (mainResult_not_success env hbs).1
  · intro b hb
    rw [buildBudgets_run env hv hf hd] at hb
    by_cases hbr : buildRuns env
    · rw [if_pos hbr] at hb
      simp only [List.mem_singleton] at hb
      rw [hb]
      exact hbr.2
    · rw [if_neg hbr] at hb
      cases hb

theorem c3_witness :
    remaining envC3 ≤ 0 ∧
    (buildBudgets (run envC3).actions = []
      ∧ (run envC3).savedCheckpoint = true
      ∧ (run envC3).outputFinished = some false) :=
  ⟨by decide,
    (c3_skip_build_when_no_time envC3 rfl rfl (fun _ => rfl)).1 (by decide)⟩

/-- C4: the marker file is written only on verified success of the
current phase's command (`build` only after `npm run init` exits 0,
`package` only after the supervised build resolves 0), each write is one
forward step of `init→build→package` from the restored stage, and across
any sequence of windows threaded through the persisted marker the full
history of marker values never regresses and never skips a phase. -/
theorem c4_marker_strictly_forward :
    (∀ env : Env,
      List.Chain' stepRel (stage0 env :: (run env).markerWrites)
      ∧ ("build" ∈ (run env).markerWrites → stage0 env = "init" ∧ env.initCode = 0)
      ∧ ("package" ∈ (run env).markerWrites →
            stage1 env = "build" ∧ 0 < remaining env ∧ buildCode env = 0))
    ∧ (∀ (m : String) (es : List Env), List.Chain' stepRel (m :: seqWrites m es)) := by
  constructor
  · intro env
    refine ⟨chain_run_markerWrites env, ?_, ?_⟩
    · intro h
      rcases run_markerWrites_cases env with hc | hc
      · exact mem_build_markerWrites env (hc ▸ h)
      · rw [hc] at h
        cases h
    · intro h
      rcases run_markerWrites_cases env with hc | hc
      · exact mem_package_markerWrites env (hc ▸ h)
      · rw [hc] at h
        cases h
  · intro m es
    exact chain_seqWrites es m

theorem c4_witness :
    "package" ∈ (run envBase).markerWrites ∧
    (stage1 envBase = "build" ∧ 0 < remaining envBase ∧ buildCode envBase = 0) :=
  ⟨by decide, (c4_marker_strictly_forward.1 envBase).2.2 (by decide)⟩

/-- C5: every checkpoint-save attempt deletes the blob immediately before
uploading it, the delete outcome (including "not found") never influences
whether the upload proceeds, the upload is attempted at most 5 times;
when every attempt fails the loop performs exactly the 5 delete+upload
pairs each followed by the fixed 10-second delay and returns failure, and
the window in the checkpoint branch still reports `finished: false`. -/
theorem c5_checkpoint_save_bounded_retry
    (name : String) (d d' p : Nat → Bool) (env : Env)
    (hv : env.versionOk = true) (hf : env.finished = false)
    (hd : env.from_artifact = true → env.downloadOk = true)
    (hnb : buildSuccessF env = false) :
    uploadLoop name d p 0 5 = uploadLoop name d' p 0 5
    ∧ (∀ j, Action.uploadArtifact name j ∈ (uploadLoop name d p 0 5).1 →
        [Action.deleteArtifact name j, Action.uploadArtifact name j] <:+:
          (uploadLoop name d p 0 5).1)
    ∧ (uploadsOf name (uploadLoop name d p 0 5).1).length ≤ 5
    ∧ ((∀ i, p i = false) →
        uploadLoop name d p 0 5 =
          ([.deleteArtifact name 0, .uploadArtifact name 0, .sleep 10000,
            .deleteArtifact name 1, .uploadArtifact name 1, .sleep 10000,
            .deleteArtifact name 2, .uploadArtifact name 2, .sleep 10000,
            .deleteArtifact name 3, .uploadArtifact name 3, .sleep 10000,
            .deleteArtifact name 4, .uploadArtifact name 4, .sleep 10000], false))
    ∧ ((uploadLoop "build-artifact" env.ckptDelOk env.ckptPutOk 0 5).1 <:+
          (run env).actions
        ∧ (run env).savedCheckpoint = true
        ∧ (run env).outputFinished = some false) := by
  have hbs : ¬(buildSuccessF env = true ∧ stage2 env = "package") := by
    rintro ⟨hb, -⟩
    rw [hnb] at hb
    cases hb
  obtain ⟨ho, hsv, ha⟩ := mainResult_not_success env hbs
  refine ⟨uploadLoop_delOk_irrel name d d' p 5 0,
    fun j => uploadLoop_delete_before_upload name d p 5 0 j,
    uploadLoop_uploadsOf name d p 5 0,
    uploadLoop_all_fail name d p, ?_, ?_, ?_⟩
  · rw [run_eq_main env hv hf hd, ha]
    exact List.suffix_append _ _
  · rw [run_eq_main env hv hf hd]
    exact hsv
  · rw [run_eq_main env hv hf hd]
    exact ho

theorem c5_witness :
    buildSuccessF envC5 = false
    ∧ (uploadLoop "build-artifact" envC5.ckptDelOk envC5.ckptPutOk 0 5).1 <:+
        (run envC5).actions
    ∧ (run envC5).savedCheckpoint = true
    ∧ (run envC5).outputFinished = some false
    ∧ uploadLoop "build-artifact" envC5.ckptDelOk envC5.ckptPutOk 0 5 =
        ([.deleteArtifact "build-artifact" 0, .uploadArtifact "build-artifact" 0,
          .sleep 10000,
          .deleteArtifact "build-artifact" 1, .uploadArtifact "build-artifact" 1,
          .sleep 10000,
          .deleteArtifact "build-artifact" 2, .uploadArtifact "build-artifact" 2,
          .sleep 10000,
          .deleteArtifact "build-artifact" 3, .uploadArtifact "build-artifact" 3,
          .sleep 10000,
          .deleteArtifact "build-artifact" 4, .uploadArtifact "build-artifact" 4,
          .sleep 10000], false) := by
  have h := c5_checkpoint_save_bounded_retry "build-artifact" envC5.ckptDelOk
    (fun _ => false) envC5.ckptPutOk envC5 rfl rfl (fun _ => rfl) (by decide)
  exact ⟨by decide, h.2.2.2.2.1, h.2.2.2.2.2.1, h.2.2.2.2.2.2,
    h.2.2.2.1 (fun _ => rfl)⟩

/-- C6: a window invoked with the `finished` input true performs no store
operation and spawns no command — its action trace is empty — and
immediately reports `finished: true` (the config read of
`brave_version.txt` precedes the check and must succeed; the spec scopes
configuration reading out of the core). -/
theorem c6_finished_short_circuit (env : Env)
    (hv : env.versionOk = true) (hf : env.finished = true) :
    (run env).actions = [] ∧ (run env).outputFinished = some true
    ∧ (run env).failed = false := by
  simp [run, hv, hf]

theorem c6_witness :
    envC6.finished = true ∧
    ((run envC6).actions = [] ∧ (run envC6).outputFinished = some true
      ∧ (run envC6).failed = false) :=
  ⟨rfl, c6_finished_short_circuit envC6 rfl rfl⟩

/-- C7 counterexample: a process that exits on its own with code 999 well
before the budget expires is classified as `TimedOut` by the caller even
though the timer never fired — the claim's "never reported as TimedOut"
is false for exit code 999. -/
theorem c7_counterexample :
    (5 : Int) < 900000
    ∧ (execWithTimeout 900000 (.exits 5 (some 999))).timerFired = false
    ∧ classify (execWithTimeout 900000 (.exits 5 (some 999))).code = .timedOut := by
  decide

/-- C7 amended: the budget timer is cancelled upon observing process exit
(for every execution in which the process exits before the timer fires,
the timer never fires) and the promise resolves with `code || 0`, so the
outcome is determined by the exit code and is `Success` or `Failure` —
never `TimedOut` — for every exit code other than a genuine 999. -/
theorem c7_timer_cancelled_on_exit (timeout t : Int) (code : Option Int)
    (h : t < timeout) :
    (execWithTimeout timeout (.exits t code)).timerFired = false
    ∧ (execWithTimeout timeout (.exits t code)).code = jsOrZero code
    ∧ (jsOrZero code ≠ 999 →
        classify (execWithTimeout timeout (.exits t code)).code ≠ .timedOut) := by
  refine ⟨?_, ?_, ?_⟩
  · simp [execWithTimeout, if_pos h]
  · simp [execWithTimeout, if_pos h]
  · intro hne
    have hc : (execWithTimeout timeout (.exits t code)).code = jsOrZero code := by
      simp [execWithTimeout, if_pos h]
    rw [hc]
    unfold classify
    by_cases h0 : jsOrZero code = 0
    · rw [if_pos h0]
      simp
    · rw [if_neg h0, if_neg hne]
      simp

theorem c7_witness :
    (5 : Int) < 100 ∧
    ((execWithTimeout 100 (.exits 5 (some 7))).timerFired = false
      ∧ (execWithTimeout 100 (.exits 5 (some 7))).code = jsOrZero (some 7)
      ∧ (jsOrZero (some 7) ≠ 999 →
          classify (execWithTimeout 100 (.exits 5 (some 7))).code ≠ .timedOut)) :=
  ⟨by decide, c7_timer_cancelled_on_exit 100 5 (some 7) (by decide)⟩

/-- C8 counterexample: when the build-process spawn errors, the `error`
handler resolves the promise with `1`, which the caller treats as an
ordinary command failure — the phase stays put, a checkpoint is saved and
the window ends normally reporting `finished: false`.  The window does
not fail, contradicting the claim that spawn failure is fatal and
surfaced. -/
theorem c8_counterexample :
    envC8.buildEvent = .errors
    ∧ buildCode envC8 = 1
    ∧ classify (buildCode envC8) = .failure 1
    ∧ (run envC8).failed = false
    ∧ (run envC8).outputFinished = some false
    ∧ (run envC8).savedCheckpoint = true := by
  decide

/-- C8 amended: a process-spawn failure of the supervised build command is
mapped to exit code 1 — the ordinary command-failure outcome — so the
phase is not advanced, the command is not retried in-process (it is
spawned exactly once), and the window ends normally with
`finished: false` rather than surfacing a window failure. -/
theorem c8_spawn_error_ordinary_failure (env : Env)
    (hv : env.versionOk = true) (hf : env.finished = false)
    (hd : env.from_artifact = true → env.downloadOk = true)
    (hs : stage1 env = "build") (hr : 0 < remaining env)
    (hev : env.buildEvent = .errors) :
    buildCode env = 1
    ∧ classify (buildCode env) = .failure 1
    ∧ "package" ∉ (run env).markerWrites
    ∧ (run env).failed = false
    ∧ (run env).outputFinished = some false
    ∧ buildBudgets (run env).actions = [remaining env] := by
  have hcode : buildCode env = 1 := by
    unfold buildCode
    rw [hev]
    rfl
  have hne : ¬(buildRuns env ∧ buildCode env = 0) := by
    rintro ⟨-, h0⟩
    rw [hcode] at h0
    cases h0
  have hbsf : buildSuccessF env = false := by
    unfold buildSuccessF
    exact decide_eq_false hne
  have hbs : ¬(buildSuccessF env = true ∧ stage2 env = "package") := by
    rintro ⟨hb, -⟩
    rw [hbsf] at hb
    cases hb
  refine ⟨hcode, by rw [hcode]; rfl, ?_, ?_, ?_, ?_⟩
  · rcases run_markerWrites_cases env with hc | hc
    · rw [hc]
      intro hmem
      have := mem_package_markerWrites env hmem
      rw [hcode] at this
      cases this.2.2
    · rw [hc]
      exact List.not_mem_nil _
  · rw [run_eq_main env hv hf hd]
    exact mainResult_failed env
  · rw [run_eq_main env hv hf hd]
    exact (mainResult_not_success env hbs).1
  · rw [buildBudgets_run env hv hf hd, if_pos ⟨hs, hr⟩]

theorem c8_witness :
    stage1 envC8 = "build" ∧ (0 : Int) < remaining envC8 ∧
    (buildCode envC8 = 1
      ∧ classify (buildCode envC8) = .failure 1
      ∧ "package" ∉ (run envC8).markerWrites
      ∧ (run envC8).failed = false
      ∧ (run envC8).outputFinished = some false
      ∧ buildBudgets (run envC8).actions = [remaining envC8]) :=
  ⟨by decide, by decide,
    c8_spawn_error_ordinary_failure envC8 rfl rfl (fun _ => rfl)
      (by decide) (by decide) rfl⟩

/-- C9: when the supervised build process dies with a null exit code
before the timer fires, `code || 0` makes the promise resolve with 0, the
caller classifies the run as a success, writes `package` to the marker
file and sets `buildSuccess` — the phase advances exactly as after a
genuine successful build. -/
theorem c9_null_exit_advances (env : Env) (t : Int)
    (hv : env.versionOk = true) (hf : env.finished = false)
    (hd : env.from_artifact = true → env.downloadOk = true)
    (hs : stage1 env = "build") (hr : 0 < remaining env)
    (hev : env.buildEvent = .exits t none) (ht : t < remaining env) :
    buildCode env = 0
    ∧ classify (buildCode env) = .success
    ∧ "package" ∈ (run env).markerWrites
    ∧ (run env).finalStage = "package"
    ∧ (run env).buildSuccess = true := by
  have hcode : buildCode env = 0 := by
    unfold buildCode
    rw [hev]
    simp [execWithTimeout, if_pos ht, jsOrZero]
  have hcond : buildRuns env ∧ buildCode env = 0 := ⟨⟨hs, hr⟩, hcode⟩
  refine ⟨hcode, by rw [hcode]; rfl, ?_, ?_, ?_⟩
  · rw [run_eq_main env hv hf hd, mainResult_markerWrites]
    unfold markerWrites buildWrites
    rw [if_pos hcond]
    simp
  · rw [run_eq_main env hv hf hd, mainResult_finalStage]
    unfold stage2
    rw [if_pos hcond]
  · rw [run_eq_main env hv hf hd, mainResult_buildSuccess]
    unfold buildSuccessF
    exact decide_eq_true hcond

theorem c9_witness :
    stage1 envC9 = "build" ∧ (0 : Int) < remaining envC9 ∧ (5 : Int) < remaining envC9 ∧
    (buildCode envC9 = 0
      ∧ classify (buildCode envC9) = .success
      ∧ "package" ∈ (run envC9).markerWrites
      ∧ (run envC9).finalStage = "package"
      ∧ (run envC9).buildSuccess = true) :=
  ⟨by decide, by decide, by decide,
    c9_null_exit_advances envC9 5 rfl rfl (fun _ => rfl)
      (by decide) (by decide) rfl (by decide)⟩

/-- C10: a build process that exits on its own with code 999 before the
budget expires (timer never fires) makes `execWithTimeout` resolve with
999; the caller logs the run as timed out and leaves the phase at
`build`, and the whole window result is identical to that of a window
whose build genuinely outlived the budget — the two are
indistinguishable. -/
theorem c10_exit_999_indistinguishable :
    (execWithTimeout (remaining envC10) envC10.buildEvent).timerFired = false
    ∧ buildCode envC10 = 999
    ∧ classify (buildCode envC10) = .timedOut
    ∧ (run envC10).timedOutLogged = true
    ∧ (run envC10).markerWrites = []
    ∧ (run envC10).finalStage = "build"
    ∧ (run envC10).outputFinished = some false
    ∧ (execWithTimeout (remaining envC10') envC10'.buildEvent).timerFired = true
    ∧ run envC10 = run envC10' := by
  decide

end PeasantBrave
